import Mathlib

/-!
Verification of the blender-filesize-profiler estimation and aggregation
engine against its natural-language specification.

The definitions in namespace `BFP` are a shallow embedding of
`src/bfp/analysis.py`, `src/bfp/cli.py` and `src/bfp/serialization.py`.
Python integers become `Nat`/`Int`; Python float arithmetic on byte sizes
(`/` true division) is modelled exactly over `ℚ`; fallible code returns
`Option`/`Except`.
-/

namespace BFP

/-- `SIZEOF_FLOAT = 4` from analysis.py: assumed bytes per float component. -/
def SIZEOF_FLOAT : Nat := 4

/-- `SIZEOF_INT = 4` from analysis.py: assumed bytes per integer index. -/
def SIZEOF_INT : Nat := 4

/-- Structural counts of a Blender mesh datablock, as read by
`estimate_mesh_data_size`: `len(mesh.vertices)`, `len(mesh.edges)`,
`len(mesh.loops)`, `len(mesh.polygons)`, the list of `len(uv_layer.data)`
over `mesh.uv_layers`, the list of `len(vc_layer.data)` over
`mesh.vertex_colors`, and `mesh.has_custom_normals`. -/
structure Mesh where
  vertices : Nat
  edges : Nat
  loops : Nat
  polygons : Nat
  uv_layers : List Nat
  vertex_colors : List Nat
  has_custom_normals : Bool
  deriving DecidableEq

/-- `estimate_mesh_data_size` from analysis.py, lines 21-55. -/
def estimate_mesh_data_size (mesh : Mesh) : Nat :=
  let size := mesh.vertices * 3 * SIZEOF_FLOAT
  let size := size + mesh.edges * 2 * SIZEOF_INT
  let size := size + mesh.loops * 2 * SIZEOF_INT
  let size := size + mesh.polygons * 3 * SIZEOF_INT
  let size := size + (mesh.uv_layers.map (fun d => d * 2 * SIZEOF_FLOAT)).sum
  let size := size + (mesh.vertex_colors.map (fun d => d * 4 * SIZEOF_FLOAT)).sum
  if mesh.has_custom_normals then size + mesh.loops * 3 * SIZEOF_FLOAT else size

/-- One spline of a curve datablock.  `hasattr(spline, "points")` /
`hasattr(spline, "bezier_points")` are modelled by `Option`: `none` when the
attribute is absent, `some n` for `len(spline.points)` resp.
`len(spline.bezier_points)`. -/
structure Spline where
  points : Option Nat
  bezier_points : Option Nat
  deriving DecidableEq

/-- `num_points` from the CURVE branch of `analyze_object` (analysis.py
lines 134-136): poly/NURBS points summed over splines exposing them. -/
def curve_num_points (splines : List Spline) : Nat :=
  (splines.filterMap (fun s => s.points)).sum

/-- `num_bezier_points` from the CURVE branch of `analyze_object`
(analysis.py lines 137-141). -/
def curve_num_bezier_points (splines : List Spline) : Nat :=
  (splines.filterMap (fun s => s.bezier_points)).sum

/-- `curve_data_size` from the CURVE branch of `analyze_object`
(analysis.py lines 149-151). -/
def estimate_curve_data_size (splines : List Spline) : Nat :=
  curve_num_points splines * 3 * SIZEOF_FLOAT +
    curve_num_bezier_points splines * 9 * SIZEOF_FLOAT

/-- A texture image datablock as read by the TEX_IMAGE branch of
`analyze_object`: `img.size[0]`, `img.size[1]`, `img.channels`, `img.depth`
(total bit depth), plus the identity/source metadata that the report carries. -/
structure Image where
  name : String
  source : String
  packed_size : Option Nat
  filepath : String
  width : Nat
  height : Nat
  channels : Nat
  depth : Nat
  users : Nat
  deriving DecidableEq

/-- `img_size` computation from `analyze_object`, analysis.py lines 189-209.
Python `//` is `Nat` division; the final `bits_per_channel / 8` is float true
division, modelled exactly in `ℚ`. -/
def estimate_image_size (img : Image) : ℚ :=
  let channels := img.channels
  let bits_per_channel :=
    if img.depth ≥ channels ∧ channels > 0 then img.depth / channels else img.depth
  let channels := if channels = 0 then 4 else channels
  let bits_per_channel := if bits_per_channel = 0 then 8 else bits_per_channel
  (img.width : ℚ) * (img.height : ℚ) * (channels : ℚ) * ((bits_per_channel : ℚ) / 8)

/-- Particle-system settings as read by the particle branch of
`analyze_object` (analysis.py lines 254-279): `settings.type`,
`settings.count`, `settings.display_percentage`, `settings.hair_step`,
`settings.users`, `settings.name`. -/
structure ParticleSettings where
  name : String
  type : String
  count : Nat
  display_percentage : Nat
  hair_step : Nat
  users : Nat
  deriving DecidableEq

/-- `particle_base_size` from `analyze_object`, analysis.py lines 265-269. -/
def particle_base_size (settings : ParticleSettings) : Nat :=
  let base := settings.count * (3 * SIZEOF_FLOAT)
  if settings.type = "HAIR" then
    base + settings.count * settings.hair_step * (3 * SIZEOF_FLOAT)
  else base

/-- Texture estimate as the specification words it (spec §4.1): the estimate
is `w·h·channels·(bits_per_channel/8)`, where a zero channel count is taken
as 4 channels, a bit depth that works out to zero is taken as 8 bits per
channel, and a reported depth smaller than the channel count (or with no
channels to divide by) is treated as already per-channel. -/
def texture_estimate_spec (w h ch d : Nat) : ℚ :=
  let channels : Nat := if ch = 0 then 4 else ch
  let bpc : Nat := if d < ch ∨ ch = 0 then d else d / ch
  let bpc : Nat := if bpc = 0 then 8 else bpc
  (w : ℚ) * (h : ℚ) * (channels : ℚ) * ((bpc : ℚ) / 8)

/-- Componentwise order on the structural count inputs of the geometry
estimate (the layer lists compared by their summed entry counts, the
custom-normal flag held fixed). -/
def MeshCountsLE (m m' : Mesh) : Prop :=
  m.vertices ≤ m'.vertices ∧ m.edges ≤ m'.edges ∧ m.loops ≤ m'.loops ∧
    m.polygons ≤ m'.polygons ∧ m.uv_layers.sum ≤ m'.uv_layers.sum ∧
    m.vertex_colors.sum ≤ m'.vertex_colors.sum ∧
    m.has_custom_normals = m'.has_custom_normals

instance (m m' : Mesh) : Decidable (MeshCountsLE m m') := by
  unfold MeshCountsLE; infer_instance

/-- Per-pixel factor of the texture estimate: everything in
`estimate_image_size` apart from the `width·height` factor. -/
def texture_per_pixel (img : Image) : ℚ :=
  let channels := img.channels
  let bits_per_channel :=
    if img.depth ≥ channels ∧ channels > 0 then img.depth / channels else img.depth
  let channels := if channels = 0 then 4 else channels
  let bits_per_channel := if bits_per_channel = 0 then 8 else bits_per_channel
  (channels : ℚ) * ((bits_per_channel : ℚ) / 8)

/-- `size_name` tuple from `format_size` (analysis.py line 14). -/
def size_name : List String := ["B", "KB", "MB", "GB", "TB"]

/-- Python 3 `round` to an integer: round half to even (banker's rounding),
modelled exactly over `ℚ`. -/
def round_half_even (q : ℚ) : ℤ :=
  let f := ⌊q⌋
  let r := q - f
  if r < 1 / 2 then f
  else if 1 / 2 < r then f + 1
  else if f % 2 = 0 then f else f + 1

/-- Python `round(x, 2)` over exact rationals. -/
def python_round2 (q : ℚ) : ℚ :=
  (round_half_even (q * 100) : ℚ) / 100

/-- Python float formatting of the rounded quotient `s` in `format_size`:
`s` is a non-negative value with at most two decimals, printed with at least
one decimal digit and without trailing zeros beyond it (`512.0`, `1.5`,
`1.05`, `1.33`). -/
def render_float (q : ℚ) : String :=
  let n : Nat := (q * 100).num.toNat
  let whole := n / 100
  let frac := n % 100
  if frac = 0 then toString whole ++ ".0"
  else if frac % 10 = 0 then toString whole ++ "." ++ toString (frac / 10)
  else if frac < 10 then toString whole ++ ".0" ++ toString frac
  else toString whole ++ "." ++ toString frac

/-- `format_size` from analysis.py lines 10-18, on non-negative inputs.
`int(math.floor(math.log(size_bytes, 1024)))` is the integer logarithm
`Nat.log 1024`, modelled exactly; the out-of-range tuple access
`size_name[i]` (a Python `IndexError`) is modelled by `none`. -/
def format_size (size_bytes : Nat) : Option String :=
  if size_bytes = 0 then some "0 B"
  else
    match size_name[Nat.log 1024 size_bytes]? with
    | some unit =>
        some (render_float (python_round2 ((size_bytes : ℚ) /
          (1024 : ℚ) ^ Nat.log 1024 size_bytes)) ++ " " ++ unit)
    | none => none

/-- `format_size` on arbitrary integers: `math.log` of a negative number
raises `ValueError`, modelled by `none` (the zero check comes first in the
source). -/
def format_size_int (b : ℤ) : Option String :=
  if b = 0 then some "0 B"
  else if b < 0 then none
  else format_size b.toNat

/-- A mesh datablock (`obj.data` for a MESH object): identity and sharing
metadata around the structural counts. -/
structure MeshBlock where
  name : String
  users : Nat
  counts : Mesh
  deriving DecidableEq

/-- A curve datablock (`obj.data` for a CURVE object). -/
structure CurveBlock where
  name : String
  users : Nat
  splines : List Spline
  deriving DecidableEq

/-- A light datablock (`obj.data` for a LIGHT object); `energy` is a Python
float carried verbatim, modelled in `ℚ`. -/
structure LightBlock where
  name : String
  type : String
  energy : ℚ
  deriving DecidableEq

/-- A shading node as inspected by `analyze_object`: its `node.type` tag and
its `node.image` (which can be `None` even on a TEX_IMAGE node). -/
structure ShaderNode where
  type : String
  image : Option Image
  deriving DecidableEq

/-- A material as inspected by `analyze_object`: `mat.use_nodes`,
`mat.node_tree` (possibly `None`) with its node list, plus name/users. -/
structure Material where
  name : String
  users : Nat
  use_nodes : Bool
  node_tree : Option (List ShaderNode)
  deriving DecidableEq

/-- One entry of `obj.material_slots`: `slot.material` may be `None`. -/
structure MaterialSlot where
  material : Option Material
  deriving DecidableEq

/-- One entry of `obj.particle_systems`: its name and its settings block. -/
structure ParticleSystem where
  name : String
  settings : ParticleSettings
  deriving DecidableEq

/-- One entry of `obj.modifiers`. -/
structure Modifier where
  name : String
  type : String
  show_viewport : Bool
  deriving DecidableEq

/-- The typed datablock behind `obj.data`, dispatched on `obj.type` as in
`analyze_object` ("MESH" / "CURVE" / "LIGHT" / anything else). -/
inductive ObjData where
  | mesh (m : MeshBlock)
  | curve (c : CurveBlock)
  | light (l : LightBlock)
  | other
  deriving DecidableEq

/-- A scene object as traversed by `analyze_object`. -/
structure Obj where
  name : String
  data : ObjData
  modifiers : List Modifier
  material_slots : List MaterialSlot
  particle_systems : List ParticleSystem
  deriving DecidableEq

/-- `material_textures_size` accumulation from `analyze_object`
(analysis.py lines 180-210): sum of `img_size` over the TEX_IMAGE nodes of
the material's node tree that carry an image, guarded by
`mat.use_nodes and mat.node_tree`. -/
def material_textures_size (mat : Material) : ℚ :=
  if mat.use_nodes then
    match mat.node_tree with
    | some nodes =>
        ((nodes.filterMap fun n =>
          if n.type = "TEX_IMAGE" then n.image else none).map
            estimate_image_size).sum
    | none => 0
  else 0

/-- Per-slot texture contribution (`slot_textures_total_size` increment,
analysis.py lines 171-243): an empty slot contributes nothing. -/
def slot_textures_size (slot : MaterialSlot) : ℚ :=
  match slot.material with
  | some mat => material_textures_size mat
  | none => 0

/-- `textures_total_size` for one object (analysis.py lines 168-246). -/
def object_textures_size (slots : List MaterialSlot) : ℚ :=
  (slots.map slot_textures_size).sum

/-- Accumulated `particle_base_size` contributions for one object
(analysis.py lines 255-275). -/
def object_particles_size (systems : List ParticleSystem) : Nat :=
  (systems.map fun p => particle_base_size p.settings).sum

/-- The object's own resource estimate: `mesh_data_original_size` for a
mesh, `curve_data_size` for a curve, zero for lights and unsupported kinds
(analysis.py lines 67-165). -/
def object_resource_size (o : Obj) : Nat :=
  match o.data with
  | .mesh m => estimate_mesh_data_size m.counts
  | .curve c => estimate_curve_data_size c.splines
  | .light _ => 0
  | .other => 0

/-- `total_object_estimated_size` as accumulated by `analyze_object`: raw
mesh/curve estimate, plus textures, plus particles.  The evaluated-mesh
estimate is never added (analysis.py line 113 comment). -/
def total_object_estimated_size (o : Obj) : ℚ :=
  (object_resource_size o : ℚ) + object_textures_size o.material_slots +
    (object_particles_size o.particle_systems : ℚ)

/-- Modelled from the spec: the `EvaluatedMeshReport` record of §3 (the
source only prints these values and keeps them in the local variables
`eval_mesh_verts_count_str`, `eval_mesh_polys_count_str`,
`mesh_data_evaluated_size`; no report value is built in `analysis.py`). -/
structure EvaluatedMeshReport where
  vertices : Option Nat
  polygons : Option Nat
  evaluated_estimated_bytes : Nat
  error : Option String
  deriving DecidableEq

/-- Modelled from the spec: the modifier descriptor of §3 (name, kind,
viewport-visibility flag). -/
structure ModifierReport where
  name : String
  kind : String
  show_viewport : Bool
  deriving DecidableEq

/-- Modelled from the spec: the `MeshReport` record of §3. -/
structure MeshReport where
  name : String
  vertices : Nat
  edges : Nat
  loops : Nat
  polygons : Nat
  uv_layer_count : Nat
  vertex_color_count : Nat
  raw_estimated_bytes : Nat
  users : Nat
  modifiers : List ModifierReport
  evaluated : EvaluatedMeshReport
  deriving DecidableEq

/-- Modelled from the spec: the `CurveReport` record of §3. -/
structure CurveReport where
  name : String
  splines : Nat
  points : Nat
  bezier_points : Nat
  estimated_bytes : Nat
  users : Nat
  deriving DecidableEq

/-- Modelled from the spec: the `LightReport` record of §3 (parameter-only
data, zero byte contribution). -/
structure LightReport where
  name : String
  kind : String
  energy : ℚ
  deriving DecidableEq

/-- Modelled from the spec: the tagged variant of §3/§9 holding exactly one
of MeshReport / CurveReport / LightReport, or none for unsupported kinds. -/
inductive DataReport where
  | mesh (r : MeshReport)
  | curve (r : CurveReport)
  | light (r : LightReport)
  | none_
  deriving DecidableEq

/-- Modelled from the spec: the `TextureReport` record of §3; the channel
count and per-channel bit depth are the adjusted values that the source
prints (analysis.py line 223). -/
structure TextureReport where
  name : String
  source : String
  packed_size : Option Nat
  filepath : String
  width : Nat
  height : Nat
  channels : Nat
  bits_per_channel : Nat
  estimated_bytes : ℚ
  users : Nat
  deriving DecidableEq

/-- Modelled from the spec: the `MaterialSlotReport` record of §3. -/
structure MaterialSlotReport where
  slot_index : Nat
  material_name : Option String
  users : Nat
  textures : List TextureReport
  estimated_bytes : ℚ
  deriving DecidableEq

/-- Modelled from the spec: the `ParticleSystemReport` record of §3. -/
structure ParticleSystemReport where
  name : String
  kind : String
  count : Nat
  display_percentage : Nat
  estimated_bytes : Nat
  users : Nat
  deriving DecidableEq

/-- Modelled from the spec: the `SceneSummary` record of §3. -/
structure SceneSummary where
  objects_analyzed : Nat
  total_estimated_bytes : ℚ
  deriving DecidableEq

/-- Modelled from the spec: the scope descriptor of §3 (whole data set vs.
active scene), selected by the `--all-objects` CLI flag. -/
inductive ScopeKind where
  | allData
  | activeScene
  deriving DecidableEq

/-- Modelled from the spec: the `ObjectReport` record of §3. -/
structure ObjectReport where
  name : String
  kind : String
  data : DataReport
  material_slots : List MaterialSlotReport
  particle_systems : List ParticleSystemReport
  total_estimated_bytes : ℚ
  deriving DecidableEq

/-- Modelled from the spec: the `SceneReport` root record of §3. -/
structure SceneReport where
  source : String
  scope : ScopeKind
  objects : List ObjectReport
  summary : SceneSummary
  deriving DecidableEq

/-- One TextureReport from one TEX_IMAGE node's image, with the adjusted
channel/bit-depth values and the `img_size` estimate the source computes
(analysis.py lines 189-231). -/
def analyze_image (img : Image) : TextureReport :=
  let bpc0 :=
    if img.depth ≥ img.channels ∧ img.channels > 0 then img.depth / img.channels
    else img.depth
  let channels := if img.channels = 0 then 4 else img.channels
  let bpc := if bpc0 = 0 then 8 else bpc0
  ⟨img.name, img.source, img.packed_size, img.filepath, img.width, img.height,
    channels, bpc, estimate_image_size img, img.users⟩

/-- The texture reports of one material (TEX_IMAGE nodes carrying images). -/
def material_texture_reports (mat : Material) : List TextureReport :=
  if mat.use_nodes then
    match mat.node_tree with
    | some nodes =>
        (nodes.filterMap fun n =>
          if n.type = "TEX_IMAGE" then n.image else none).map analyze_image
    | none => []
  else []

/-- One MaterialSlotReport per slot; an empty slot yields the empty-slot
marker with no textures. -/
def analyze_slot (idx : Nat) (slot : MaterialSlot) : MaterialSlotReport :=
  match slot.material with
  | none => ⟨idx, none, 0, [], 0⟩
  | some mat =>
      let texs := material_texture_reports mat
      ⟨idx, some mat.name, mat.users, texs,
        (texs.map fun t => t.estimated_bytes).sum⟩

/-- The EvaluatedMeshReport for one mesh object, from the outcome of the
provider's evaluate/`to_mesh` call (analysis.py lines 95-129): on success
with a mesh, counts and `estimate_mesh_data_size` of the evaluated mesh; on
success without a mesh, no counts and an estimated size that stays at its
initial 0; on a raised provider failure, the exception message and the raw
estimate as fallback. -/
def evaluated_mesh_report (raw : Nat) (ev : Except String (Option Mesh)) :
    EvaluatedMeshReport :=
  match ev with
  | .ok (some em) => ⟨some em.vertices, some em.polygons,
      estimate_mesh_data_size em, none⟩
  | .ok none => ⟨none, none, 0,
      some "Could not convert evaluated object to mesh for stats"⟩
  | .error e => ⟨none, none, raw, some e⟩

/-- One ParticleSystemReport from one particle system's settings. -/
def analyze_particle_system (p : ParticleSystem) : ParticleSystemReport :=
  ⟨p.name, p.settings.type, p.settings.count, p.settings.display_percentage,
    particle_base_size p.settings, p.settings.users⟩

/-- The per-kind data report of one object (analysis.py lines 67-165);
`ev` is the provider outcome of the evaluated-geometry request, relevant
only for mesh objects. -/
def analyze_data (o : Obj) (ev : Except String (Option Mesh)) : DataReport :=
  match o.data with
  | .mesh m =>
      .mesh ⟨m.name, m.counts.vertices, m.counts.edges, m.counts.loops,
        m.counts.polygons, m.counts.uv_layers.length,
        m.counts.vertex_colors.length, estimate_mesh_data_size m.counts,
        m.users, o.modifiers.map fun md => ⟨md.name, md.type, md.show_viewport⟩,
        evaluated_mesh_report (estimate_mesh_data_size m.counts) ev⟩
  | .curve c =>
      .curve ⟨c.name, c.splines.length, curve_num_points c.splines,
        curve_num_bezier_points c.splines, estimate_curve_data_size c.splines,
        c.users⟩
  | .light l => .light ⟨l.name, l.type, l.energy⟩
  | .other => .none_

/-- `obj.type` of an object, as dispatched on in `analyze_object`. -/
def obj_kind (o : Obj) : String :=
  match o.data with
  | .mesh _ => "MESH"
  | .curve _ => "CURVE"
  | .light _ => "LIGHT"
  | .other => "OTHER"

/-- Modelled from the spec: the per-object report assembly of §4.2 steps
2-5 (the source's `analyze_object` prints these values instead of building
a record; every numeric field is computed exactly as the source computes
it). -/
def analyze_object (o : Obj) (ev : Except String (Option Mesh)) : ObjectReport :=
  ⟨o.name, obj_kind o, analyze_data o ev,
    o.material_slots.enum.map fun p => analyze_slot p.1 p.2,
    o.particle_systems.map analyze_particle_system,
    total_object_estimated_size o⟩

/-- Modelled from the spec: the scene-level aggregation of §4.2 step 6
(`SceneSummary.total_estimated_bytes` accumulated over all ObjectReports);
each object is paired with the provider outcome of its evaluated-geometry
request. -/
def build_scene_report (src : String) (scope : ScopeKind)
    (objs : List (Obj × Except String (Option Mesh))) : SceneReport :=
  let reports := objs.map fun p => analyze_object p.1 p.2
  ⟨src, scope, reports,
    ⟨reports.length, (reports.map fun r => r.total_estimated_bytes).sum⟩⟩

/-- The resource estimate a data report carries: raw (pre-modifier) bytes
for a mesh, curve bytes for a curve, zero otherwise. -/
def data_report_bytes : DataReport → ℚ
  | .mesh r => (r.raw_estimated_bytes : ℚ)
  | .curve r => (r.estimated_bytes : ℚ)
  | .light _ => 0
  | .none_ => 0

/-- The evaluated-mesh report of an object report, when its kind has one. -/
def eval_report_of (r : ObjectReport) : Option EvaluatedMeshReport :=
  match r.data with
  | .mesh mr => some mr.evaluated
  | _ => none

/-- The value cli.py receives from `analysis.profile_blend_file` when the
call returns (cli.py reads `status`, `message`, `summary`, ... from it). -/
structure AnalysisData where
  status : String
  message : String
  deriving DecidableEq

/-- Outcome of `bpy.ops.wm.open_mainfile` inside `profile_blend_file`. -/
inductive OpenResult where
  | ok
  | runtimeError (msg : String)
  deriving DecidableEq

/-- Control flow of `profile_blend_file` (analysis.py lines 290-338) as
seen by its caller: a failed open re-raises `RuntimeError`; every other
path — including the no-active-scene early `return` on line 327 — returns
Python `None` (the function has no `return` with a value). -/
def profile_blend_file (openRes : OpenResult) (analyze_all_scene_objects : Bool)
    (ctx_scene : Option String) : Except String (Option AnalysisData) :=
  match openRes with
  | .runtimeError e => .error e
  | .ok =>
      if analyze_all_scene_objects then
        .ok none
      else
        match ctx_scene with
        | some _ => .ok none
        | none => .ok none

/-- Exit code of `main` in cli.py (lines 101-134) as a function of the
outcome of the `profile_blend_file` call, for a non-web run: a raised
`RuntimeError` exits 1; otherwise the CLI exits 1 only when the returned
value is a dict whose `status` is `"error"`, and exits 0 in every other
case (a `None` return is falsy at lines 112, 122 and 131, so it falls
through to `sys.exit(0)`). -/
def cli_exit_code (res : Except String (Option AnalysisData)) : Nat :=
  match res with
  | .error _ => 1
  | .ok analysis_data =>
      match analysis_data with
      | some d => if d.status = "error" then 1 else 0
      | none => 0

/-- A sample mesh object (a cube) used to instantiate the report-level
theorems on concrete data. -/
def sample_cube : Obj :=
  ⟨"Cube", .mesh ⟨"Cube", 1, ⟨8, 12, 24, 6, [], [], false⟩⟩, [], [], []⟩

/-- Modelled from the spec: the node values of the structured,
indentation-based, key-ordered text format that `serialize_to_yaml` writes
and `load_from_yaml` reads (serialization.py delegates the text encoding to
the external `yaml` library with `sort_keys=False`, so mappings keep their
keys in emission order; that library is not part of this repository). -/
inductive Yaml where
  | str (s : String)
  | nat (n : Nat)
  | rat (q : ℚ)
  | bool (b : Bool)
  | null
  | list (xs : List Yaml)
  | map (kvs : List (String × Yaml))

def yOptNat : Option Nat → Yaml
  | none => .null
  | some n => .nat n

def yOptStr : Option String → Yaml
  | none => .null
  | some s => .str s

def unStr : Yaml → Option String
  | .str s => some s
  | _ => none

def unNat : Yaml → Option Nat
  | .nat n => some n
  | _ => none

def unRat : Yaml → Option ℚ
  | .rat q => some q
  | _ => none

def unBool : Yaml → Option Bool
  | .bool b => some b
  | _ => none

def unOptNat : Yaml → Option (Option Nat)
  | .null => some none
  | .nat n => some (some n)
  | _ => none

def unOptStr : Yaml → Option (Option String)
  | .null => some none
  | .str s => some (some s)
  | _ => none

def decodeList (g : Yaml → Option α) : List Yaml → Option (List α)
  | [] => some []
  | y :: ys =>
      match g y, decodeList g ys with
      | some a, some rest => some (a :: rest)
      | _, _ => none

def unList (g : Yaml → Option α) : Yaml → Option (List α)
  | .list ys => decodeList g ys
  | _ => none

def yScope : ScopeKind → Yaml
  | .allData => .str "all_objects"
  | .activeScene => .str "active_scene"

def unScope : Yaml → Option ScopeKind
  | .str "all_objects" => some .allData
  | .str "active_scene" => some .activeScene
  | _ => none

def yModifier (m : ModifierReport) : Yaml :=
  .map [("name", .str m.name), ("kind", .str m.kind),
    ("show_viewport", .bool m.show_viewport)]

def unModifier : Yaml → Option ModifierReport
  | .map [("name", y1), ("kind", y2), ("show_viewport", y3)] =>
      (unStr y1).bind fun name =>
      (unStr y2).bind fun kind =>
      (unBool y3).map fun show_viewport =>
      ⟨name, kind, show_viewport⟩
  | _ => none

def yEvaluated (e : EvaluatedMeshReport) : Yaml :=
  .map [("vertices", yOptNat e.vertices), ("polygons", yOptNat e.polygons),
    ("evaluated_estimated_bytes", .nat e.evaluated_estimated_bytes),
    ("error", yOptStr e.error)]

def unEvaluated : Yaml → Option EvaluatedMeshReport
  | .map [("vertices", y1), ("polygons", y2),
      ("evaluated_estimated_bytes", y3), ("error", y4)] =>
      (unOptNat y1).bind fun vertices =>
      (unOptNat y2).bind fun polygons =>
      (unNat y3).bind fun bytes =>
      (unOptStr y4).map fun error =>
      ⟨vertices, polygons, bytes, error⟩
  | _ => none

def yMeshReport (r : MeshReport) : Yaml :=
  .map [("name", .str r.name), ("vertices", .nat r.vertices),
    ("edges", .nat r.edges), ("loops", .nat r.loops),
    ("polygons", .nat r.polygons), ("uv_layer_count", .nat r.uv_layer_count),
    ("vertex_color_count", .nat r.vertex_color_count),
    ("raw_estimated_bytes", .nat r.raw_estimated_bytes),
    ("users", .nat r.users),
    ("modifiers", .list (r.modifiers.map yModifier)),
    ("evaluated", yEvaluated r.evaluated)]

def unMeshReport : Yaml → Option MeshReport
  | .map [("name", y1), ("vertices", y2), ("edges", y3), ("loops", y4),
      ("polygons", y5), ("uv_layer_count", y6), ("vertex_color_count", y7),
      ("raw_estimated_bytes", y8), ("users", y9), ("modifiers", y10),
      ("evaluated", y11)] =>
      (unStr y1).bind fun name =>
      (unNat y2).bind fun vertices =>
      (unNat y3).bind fun edges =>
      (unNat y4).bind fun loops =>
      (unNat y5).bind fun polygons =>
      (unNat y6).bind fun uv_layer_count =>
      (unNat y7).bind fun vertex_color_count =>
      (unNat y8).bind fun raw_estimated_bytes =>
      (unNat y9).bind fun users =>
      (unList unModifier y10).bind fun modifiers =>
      (unEvaluated y11).map fun evaluated =>
      ⟨name, vertices, edges, loops, polygons, uv_layer_count,
        vertex_color_count, raw_estimated_bytes, users, modifiers, evaluated⟩
  | _ => none

def yCurveReport (r : CurveReport) : Yaml :=
  .map [("name", .str r.name), ("splines", .nat r.splines),
    ("points", .nat r.points), ("bezier_points", .nat r.bezier_points),
    ("estimated_bytes", .nat r.estimated_bytes), ("users", .nat r.users)]

def unCurveReport : Yaml → Option CurveReport
  | .map [("name", y1), ("splines", y2), ("points", y3),
      ("bezier_points", y4), ("estimated_bytes", y5), ("users", y6)] =>
      (unStr y1).bind fun name =>
      (unNat y2).bind fun splines =>
      (unNat y3).bind fun points =>
      (unNat y4).bind fun bezier_points =>
      (unNat y5).bind fun estimated_bytes =>
      (unNat y6).map fun users =>
      ⟨name, splines, points, bezier_points, estimated_bytes, users⟩
  | _ => none

def yLightReport (r : LightReport) : Yaml :=
  .map [("name", .str r.name), ("kind", .str r.kind),
    ("energy", .rat r.energy)]

def unLightReport : Yaml → Option LightReport
  | .map [("name", y1), ("kind", y2), ("energy", y3)] =>
      (unStr y1).bind fun name =>
      (unStr y2).bind fun kind =>
      (unRat y3).map fun energy =>
      ⟨name, kind, energy⟩
  | _ => none

def yData : DataReport → Yaml
  | .mesh r => .map [("mesh", yMeshReport r)]
  | .curve r => .map [("curve", yCurveReport r)]
  | .light r => .map [("light", yLightReport r)]
  | .none_ => .null

def unData : Yaml → Option DataReport
  | .map [("mesh", y)] => (unMeshReport y).map .mesh
  | .map [("curve", y)] => (unCurveReport y).map .curve
  | .map [("light", y)] => (unLightReport y).map .light
  | .null => some .none_
  | _ => none

def yTexture (t : TextureReport) : Yaml :=
  .map [("name", .str t.name), ("source", .str t.source),
    ("packed_size", yOptNat t.packed_size), ("filepath", .str t.filepath),
    ("width", .nat t.width), ("height", .nat t.height),
    ("channels", .nat t.channels),
    ("bits_per_channel", .nat t.bits_per_channel),
    ("estimated_bytes", .rat t.estimated_bytes), ("users", .nat t.users)]

def unTexture : Yaml → Option TextureReport
  | .map [("name", y1), ("source", y2), ("packed_size", y3),
      ("filepath", y4), ("width", y5), ("height", y6), ("channels", y7),
      ("bits_per_channel", y8), ("estimated_bytes", y9), ("users", y10)] =>
      (unStr y1).bind fun name =>
      (unStr y2).bind fun source =>
      (unOptNat y3).bind fun packed_size =>
      (unStr y4).bind fun filepath =>
      (unNat y5).bind fun width =>
      (unNat y6).bind fun height =>
      (unNat y7).bind fun channels =>
      (unNat y8).bind fun bits_per_channel =>
      (unRat y9).bind fun estimated_bytes =>
      (unNat y10).map fun users =>
      ⟨name, source, packed_size, filepath, width, height, channels,
        bits_per_channel, estimated_bytes, users⟩
  | _ => none

def yMaterialSlot (s : MaterialSlotReport) : Yaml :=
  .map [("slot_index", .nat s.slot_index),
    ("material_name", yOptStr s.material_name), ("users", .nat s.users),
    ("textures", .list (s.textures.map yTexture)),
    ("estimated_bytes", .rat s.estimated_bytes)]

def unMaterialSlot : Yaml → Option MaterialSlotReport
  | .map [("slot_index", y1), ("material_name", y2), ("users", y3),
      ("textures", y4), ("estimated_bytes", y5)] =>
      (unNat y1).bind fun slot_index =>
      (unOptStr y2).bind fun material_name =>
      (unNat y3).bind fun users =>
      (unList unTexture y4).bind fun textures =>
      (unRat y5).map fun estimated_bytes =>
      ⟨slot_index, material_name, users, textures, estimated_bytes⟩
  | _ => none

def yParticleSystemReport (p : ParticleSystemReport) : Yaml :=
  .map [("name", .str p.name), ("kind", .str p.kind),
    ("count", .nat p.count),
    ("display_percentage", .nat p.display_percentage),
    ("estimated_bytes", .nat p.estimated_bytes), ("users", .nat p.users)]

def unParticleSystemReport : Yaml → Option ParticleSystemReport
  | .map [("name", y1), ("kind", y2), ("count", y3),
      ("display_percentage", y4), ("estimated_bytes", y5), ("users", y6)] =>
      (unStr y1).bind fun name =>
      (unStr y2).bind fun kind =>
      (unNat y3).bind fun count =>
      (unNat y4).bind fun display_percentage =>
      (unNat y5).bind fun estimated_bytes =>
      (unNat y6).map fun users =>
      ⟨name, kind, count, display_percentage, estimated_bytes, users⟩
  | _ => none

def ySummary (s : SceneSummary) : Yaml :=
  .map [("objects_analyzed", .nat s.objects_analyzed),
    ("total_estimated_bytes", .rat s.total_estimated_bytes)]

def unSummary : Yaml → Option SceneSummary
  | .map [("objects_analyzed", y1), ("total_estimated_bytes", y2)] =>
      (unNat y1).bind fun objects_analyzed =>
      (unRat y2).map fun total_estimated_bytes =>
      ⟨objects_analyzed, total_estimated_bytes⟩
  | _ => none

def yObject (r : ObjectReport) : Yaml :=
  .map [("name", .str r.name), ("kind", .str r.kind), ("data", yData r.data),
    ("material_slots", .list (r.material_slots.map yMaterialSlot)),
    ("particle_systems", .list (r.particle_systems.map yParticleSystemReport)),
    ("total_estimated_bytes", .rat r.total_estimated_bytes)]

def unObject : Yaml → Option ObjectReport
  | .map [("name", y1), ("kind", y2), ("data", y3), ("material_slots", y4),
      ("particle_systems", y5), ("total_estimated_bytes", y6)] =>
      (unStr y1).bind fun name =>
      (unStr y2).bind fun kind =>
      (unData y3).bind fun data =>
      (unList unMaterialSlot y4).bind fun material_slots =>
      (unList unParticleSystemReport y5).bind fun particle_systems =>
      (unRat y6).map fun total_estimated_bytes =>
      ⟨name, kind, data, material_slots, particle_systems,
        total_estimated_bytes⟩
  | _ => none

/-- Modelled from the spec: the durable-storage writer (`serialize_to_yaml`
delegating to the external yaml library with `sort_keys=False`), at the
level of the emitted value tree: every field of §3 is emitted, mapping keys
in declaration order. -/
def ySceneReport (r : SceneReport) : Yaml :=
  .map [("source", .str r.source), ("scope", yScope r.scope),
    ("objects", .list (r.objects.map yObject)),
    ("summary", ySummary r.summary)]

/-- Modelled from the spec: the durable-storage reader (`load_from_yaml`
delegating to the external yaml library), as the partial inverse of
`ySceneReport`. -/
def unSceneReport : Yaml → Option SceneReport
  | .map [("source", y1), ("scope", y2), ("objects", y3), ("summary", y4)] =>
      (unStr y1).bind fun source =>
      (unScope y2).bind fun scope =>
      (unList unObject y3).bind fun objects =>
      (unSummary y4).map fun summary =>
      ⟨source, scope, objects, summary⟩
  | _ => none

/-- The key sequence of a serialized mapping node. -/
def yaml_keys : Yaml → List String
  | .map kvs => kvs.map fun p => p.1
  | _ => []

/-! ### Theorems -/

/-- Closed form of `estimate_mesh_data_size`: the per-layer loop sums
collapse to 8 resp. 16 times the total entry counts. -/
lemma estimate_mesh_data_size_eq (m : Mesh) :
    estimate_mesh_data_size m =
      12 * m.vertices + 8 * m.edges + 8 * m.loops + 12 * m.polygons +
        8 * m.uv_layers.sum + 16 * m.vertex_colors.sum +
        (if m.has_custom_normals then 12 * m.loops else 0) := by
  unfold estimate_mesh_data_size SIZEOF_FLOAT SIZEOF_INT
  have huv : (m.uv_layers.map (fun d => d * 2 * 4)).sum = 8 * m.uv_layers.sum := by
    induction m.uv_layers with
    | nil => simp
    | cons x xs ih => simp [ih]; ring
  have hvc : (m.vertex_colors.map (fun d => d * 4 * 4)).sum =
      16 * m.vertex_colors.sum := by
    induction m.vertex_colors with
    | nil => simp
    | cons x xs ih => simp [ih]; ring
  cases h : m.has_custom_normals <;> simp [h, huv, hvc] <;> ring

/-- C3: for every mesh with non-negative counts, the geometry estimate is
`12·v + 8·e + 8·l + 12·p + 8·(total UV entries) + 16·(total color entries)`,
plus `12·l` exactly when custom normals are present; in particular a mesh
with 8 vertices, 12 edges, 24 loops, 6 polygons, no UV/color layers and no
custom normals yields 456 bytes. -/
theorem C3_mesh_estimate_formula :
    (∀ m : Mesh,
      estimate_mesh_data_size m =
        12 * m.vertices + 8 * m.edges + 8 * m.loops + 12 * m.polygons +
          8 * m.uv_layers.sum + 16 * m.vertex_colors.sum +
          (if m.has_custom_normals then 12 * m.loops else 0)) ∧
    estimate_mesh_data_size ⟨8, 12, 24, 6, [], [], false⟩ = 456 :=
  ⟨estimate_mesh_data_size_eq, rfl⟩

/-- C4: the texture estimate computed by `analyze_object` agrees with the
specification's formula `w·h·channels·(bits_per_channel/8)` with its stated
edge-case policy (zero channels → 4, zero depth → 8 bits per channel, depth
smaller than channel count treated as already per-channel); in particular a
1024×1024, 4-channel, 8-bit-per-channel image (total depth 32) yields
4194304 bytes. -/
theorem C4_texture_estimate :
    (∀ img : Image,
      estimate_image_size img =
        texture_estimate_spec img.width img.height img.channels img.depth) ∧
    estimate_image_size ⟨"tex", "FILE", none, "//tex.png", 1024, 1024, 4, 32, 1⟩
      = 4194304 := by
  constructor
  · intro img
    simp only [estimate_image_size, texture_estimate_spec]
    split_ifs <;> first | rfl | (exfalso; omega)
  · norm_num [estimate_image_size]

/-- C7: the particle estimate is `12·count`, with `12·count·hair_step` added
exactly when the system type is the hair kind; in particular 200 hair
particles with `hair_step = 5` yield 14400 bytes. -/
theorem C7_particle_estimate :
    (∀ s : ParticleSettings,
      particle_base_size s =
        12 * s.count + (if s.type = "HAIR" then 12 * s.count * s.hair_step else 0)) ∧
    particle_base_size ⟨"psys", "HAIR", 200, 100, 5, 1⟩ = 14400 := by
  constructor
  · intro s
    unfold particle_base_size SIZEOF_FLOAT
    by_cases h : s.type = "HAIR" <;> simp [h] <;> ring
  · rfl

lemma estimate_image_size_eq_mul (img : Image) :
    estimate_image_size img =
      (img.width : ℚ) * (img.height : ℚ) * texture_per_pixel img := by
  simp only [estimate_image_size, texture_per_pixel]; ring

lemma texture_per_pixel_nonneg (img : Image) : 0 ≤ texture_per_pixel img := by
  simp only [texture_per_pixel]
  split_ifs <;> positivity

/-- C5 counterexample: the texture estimate is not monotonically
non-decreasing in the reported channel count (raising a 1×1 depth-8 image
from 2 to 3 channels shrinks the estimate from 1 to 3/4 bytes), nor in the
reported bit depth (raising a 1×1 4-channel image from depth 3 to depth 4
shrinks the estimate from 3/2 to 1/2 bytes), and it is not integer-valued
(a 1×1 1-channel depth-4 image yields 1/2 byte). -/
theorem C5_counterexample :
    estimate_image_size ⟨"t", "FILE", none, "", 1, 1, 3, 8, 1⟩ <
      estimate_image_size ⟨"t", "FILE", none, "", 1, 1, 2, 8, 1⟩ ∧
    estimate_image_size ⟨"t", "FILE", none, "", 1, 1, 4, 4, 1⟩ <
      estimate_image_size ⟨"t", "FILE", none, "", 1, 1, 4, 3, 1⟩ ∧
    (estimate_image_size ⟨"t", "FILE", none, "", 1, 1, 1, 4, 1⟩).den ≠ 1 := by
  refine ⟨?_, ?_, ?_⟩ <;> norm_num [estimate_image_size]

/-- C5 amended: every estimation function returns a non-negative value; the
geometry, curve and particle estimates are integers (they live in `ℕ`) and
are monotonically non-decreasing in each of their count inputs; the texture
estimate is a non-negative rational that is monotonically non-decreasing in
width and height, but (per the counterexample) not in channel count or bit
depth, and it may be fractional. -/
theorem C5_amended :
    (∀ m m' : Mesh, MeshCountsLE m m' →
        estimate_mesh_data_size m ≤ estimate_mesh_data_size m') ∧
    (∀ s s' : List Spline, curve_num_points s ≤ curve_num_points s' →
        curve_num_bezier_points s ≤ curve_num_bezier_points s' →
        estimate_curve_data_size s ≤ estimate_curve_data_size s') ∧
    (∀ img : Image, 0 ≤ estimate_image_size img) ∧
    (∀ (img : Image) (w h : Nat), img.width ≤ w → img.height ≤ h →
        estimate_image_size img ≤
          estimate_image_size { img with width := w, height := h }) ∧
    (∀ p p' : ParticleSettings, p.type = p'.type → p.count ≤ p'.count →
        p.hair_step ≤ p'.hair_step →
        particle_base_size p ≤ particle_base_size p') := by
  refine ⟨?_, ?_, ?_, ?_, ?_⟩
  · intro m m' h
    obtain ⟨h1, h2, h3, h4, h5, h6, h7⟩ := h
    rw [estimate_mesh_data_size_eq, estimate_mesh_data_size_eq, h7]
    cases m'.has_custom_normals <;> simp <;> omega
  · intro s s' h1 h2
    unfold estimate_curve_data_size SIZEOF_FLOAT
    omega
  · intro img
    rw [estimate_image_size_eq_mul]
    have h0 := texture_per_pixel_nonneg img
    positivity
  · intro img w h hw hh
    rw [estimate_image_size_eq_mul, estimate_image_size_eq_mul]
    have hpp : texture_per_pixel { img with width := w, height := h } =
        texture_per_pixel img := rfl
    rw [hpp]
    show (img.width : ℚ) * (img.height : ℚ) * texture_per_pixel img ≤
      (w : ℚ) * (h : ℚ) * texture_per_pixel img
    have hw' : (img.width : ℚ) ≤ w := by exact_mod_cast hw
    have hh' : (img.height : ℚ) ≤ h := by exact_mod_cast hh
    have h0 := texture_per_pixel_nonneg img
    apply mul_le_mul _ le_rfl h0 (by positivity)
    exact mul_le_mul hw' hh' (by positivity) (by positivity)
  · intro p p' ht hc hs
    unfold particle_base_size SIZEOF_FLOAT
    rw [ht]
    by_cases h : p'.type = "HAIR" <;> simp [h]
    · have := Nat.mul_le_mul hc hs
      calc p.count * 12 + p.count * p.hair_step * 12
          ≤ p'.count * 12 + p'.count * p'.hair_step * 12 := by
            apply Nat.add_le_add <;> apply Nat.mul_le_mul_right
            · exact hc
            · exact Nat.mul_le_mul hc hs
        _ = p'.count * 12 + p'.count * p'.hair_step * 12 := rfl
    · omega

/-- C5 witness: concrete instances of the amended monotonicity and
non-negativity statements. -/
theorem C5_witness :
    estimate_mesh_data_size ⟨8, 12, 24, 6, [], [], false⟩ ≤
      estimate_mesh_data_size ⟨9, 12, 25, 6, [], [], false⟩ ∧
    estimate_curve_data_size [⟨some 3, some 1⟩] ≤
      estimate_curve_data_size [⟨some 5, some 2⟩] ∧
    0 ≤ estimate_image_size ⟨"t", "FILE", none, "", 1024, 1024, 4, 32, 1⟩ ∧
    estimate_image_size ⟨"t", "FILE", none, "", 10, 10, 4, 32, 1⟩ ≤
      estimate_image_size ⟨"t", "FILE", none, "", 20, 30, 4, 32, 1⟩ ∧
    particle_base_size ⟨"p", "HAIR", 100, 100, 2, 1⟩ ≤
      particle_base_size ⟨"p", "HAIR", 200, 100, 5, 1⟩ := by
  obtain ⟨h1, h2, h3, h4, h5⟩ := C5_amended
  exact ⟨h1 _ _ (by decide),
    h2 _ _ (by decide) (by decide),
    h3 _,
    h4 ⟨"t", "FILE", none, "", 10, 10, 4, 32, 1⟩ 20 30 (by decide) (by decide),
    h5 _ _ rfl (by decide) (by decide)⟩

lemma abs_round_half_even_sub_le (y : ℚ) : |(round_half_even y : ℚ) - y| ≤ 1 / 2 := by
  simp only [round_half_even]
  have h1 : (⌊y⌋ : ℚ) ≤ y := Int.floor_le y
  have h2 : y < ⌊y⌋ + 1 := Int.lt_floor_add_one y
  split_ifs with ha hb hc <;> rw [abs_le] <;> constructor <;> push_cast <;> linarith

lemma abs_python_round2_sub_le (q : ℚ) : |python_round2 q - q| ≤ 1 / 200 := by
  unfold python_round2
  have h := abs_round_half_even_sub_le (q * 100)
  have heq : (round_half_even (q * 100) : ℚ) / 100 - q =
      ((round_half_even (q * 100) : ℚ) - q * 100) / 100 := by ring
  rw [heq, abs_div]
  have : |(100 : ℚ)| = 100 := by norm_num
  rw [this]
  linarith

/-- C6: `format_size` renders with base-1024 units from the five-element
unit list at index `⌊log₁₀₂₄ b⌋` (so the displayed unit brackets the byte
count between consecutive powers of 1024), with the displayed value the
quotient rounded to two decimals (within 1/200 of the exact quotient); in
particular `format_size 0 = "0 B"`, `format_size 1024 = "1.0 KB"` and
`format_size 1048576 = "1.0 MB"`. -/
theorem C6_format_size :
    format_size 0 = some "0 B" ∧
    format_size 1024 = some "1.0 KB" ∧
    format_size 1048576 = some "1.0 MB" ∧
    (∀ b : Nat, 0 < b → b < 1024 ^ 5 →
      ∃ q : ℚ,
        format_size b =
          some (render_float q ++ " " ++ size_name.getD (Nat.log 1024 b) "") ∧
        |q - (b : ℚ) / (1024 : ℚ) ^ Nat.log 1024 b| ≤ 1 / 200 ∧
        1024 ^ Nat.log 1024 b ≤ b ∧ b < 1024 ^ (Nat.log 1024 b + 1)) := by
  have l1 : Nat.log 1024 1024 = 1 :=
    Nat.log_eq_of_pow_le_of_lt_pow (by norm_num) (by norm_num)
  have l2 : Nat.log 1024 1048576 = 2 :=
    Nat.log_eq_of_pow_le_of_lt_pow (by norm_num) (by norm_num)
  have hrender : render_float 1 = "1.0" := by
    simp only [render_float]
    rw [show ((1 : ℚ) * 100) = (100 : ℚ) by norm_num]
    decide
  refine ⟨rfl, ?_, ?_, ?_⟩
  · simp only [format_size]
    rw [l1, show size_name[1]? = some "KB" from rfl,
      show python_round2 (((1024 : ℕ) : ℚ) / (1024 : ℚ) ^ 1) = 1 by
        simp only [python_round2, round_half_even]; norm_num,
      hrender]
    decide
  · simp only [format_size]
    rw [l2, show size_name[2]? = some "MB" from rfl,
      show python_round2 (((1048576 : ℕ) : ℚ) / (1024 : ℚ) ^ 2) = 1 by
        simp only [python_round2, round_half_even]; norm_num,
      hrender]
    decide
  · intro b hb hlt
    have hne : b ≠ 0 := hb.ne'
    have hi : Nat.log 1024 b < 5 := Nat.log_lt_of_lt_pow hne hlt
    have hlow : 1024 ^ Nat.log 1024 b ≤ b := Nat.pow_log_le_self 1024 hne
    have hhigh : b < 1024 ^ (Nat.log 1024 b + 1) :=
      Nat.lt_pow_succ_log_self (by norm_num) b
    refine ⟨python_round2 ((b : ℚ) / (1024 : ℚ) ^ Nat.log 1024 b), ?_,
      abs_python_round2_sub_le _, hlow, hhigh⟩
    have hunit : size_name[Nat.log 1024 b]? =
        some (size_name.getD (Nat.log 1024 b) "") := by
      interval_cases h : Nat.log 1024 b <;> rfl
    simp only [format_size, if_neg hne]
    rw [hunit]

/-- C6 witness: the general rendering properties of `C6_format_size`
instantiated at 2048 bytes. -/
theorem C6_format_size_witness :
    ∃ q : ℚ,
      format_size 2048 =
        some (render_float q ++ " " ++ size_name.getD (Nat.log 1024 2048) "") ∧
      |q - (2048 : ℚ) / (1024 : ℚ) ^ Nat.log 1024 2048| ≤ 1 / 200 ∧
      1024 ^ Nat.log 1024 2048 ≤ 2048 ∧ 2048 < 1024 ^ (Nat.log 1024 2048 + 1) :=
  C6_format_size.2.2.2 2048 (by norm_num) (by norm_num)

/-- C10: `format_size` succeeds exactly on byte counts `b` with
`0 ≤ b < 1024^5`: within that range the computed unit index lies inside the
five-element unit list, at or above `1024^5` the unit lookup is out of
bounds, and below zero the logarithm is undefined. -/
theorem C10_format_size_domain :
    ∀ b : ℤ, (format_size_int b).isSome ↔ 0 ≤ b ∧ b < 1024 ^ 5 := by
  intro b
  unfold format_size_int
  by_cases h0 : b = 0
  · subst h0
    simp only [if_pos rfl, Option.isSome_some, true_iff]
    norm_num
  · rw [if_neg h0]
    by_cases hneg : b < 0
    · rw [if_pos hneg]
      simp only [Option.isSome_none, Bool.false_eq_true, false_iff, not_and, not_lt]
      intro h
      omega
    · rw [if_neg hneg]
      have hbpos : 0 < b := by omega
      have hne : b.toNat ≠ 0 := by omega
      unfold format_size
      rw [if_neg hne]
      by_cases hrange : b.toNat < 1024 ^ 5
      · have hi : Nat.log 1024 b.toNat < 5 := Nat.log_lt_of_lt_pow hne hrange
        have hunit : ∃ u, size_name[Nat.log 1024 b.toNat]? = some u := by
          interval_cases h : Nat.log 1024 b.toNat <;> exact ⟨_, rfl⟩
        obtain ⟨u, hu⟩ := hunit
        rw [hu]
        simp only [Option.isSome_some, true_iff]
        constructor
        · omega
        · have : (b.toNat : ℤ) = b := by omega
          rw [← this]
          exact_mod_cast hrange
      · have hge : 1024 ^ 5 ≤ b.toNat := by omega
        have hlog : 5 ≤ Nat.log 1024 b.toNat :=
          (Nat.pow_le_iff_le_log (by norm_num) hne).mp hge
        have hnone : size_name[Nat.log 1024 b.toNat]? = none :=
          List.getElem?_eq_none (by simpa [size_name] using hlog)
        rw [hnone]
        simp only [Option.isSome_none, Bool.false_eq_true, false_iff]
        intro hcon
        have : b.toNat < 1024 ^ 5 := by
          have hb5 : b < (1024 : ℤ) ^ 5 := hcon.2
          omega
        omega

lemma analyze_slot_estimated_bytes (idx : Nat) (s : MaterialSlot) :
    (analyze_slot idx s).estimated_bytes = slot_textures_size s := by
  cases hs : s.material with
  | none => simp [analyze_slot, slot_textures_size, hs]
  | some mat =>
    simp only [analyze_slot, slot_textures_size, hs]
    show ((material_texture_reports mat).map fun t => t.estimated_bytes).sum =
      material_textures_size mat
    by_cases hn : mat.use_nodes
    · cases ht : mat.node_tree with
      | none => simp [material_texture_reports, material_textures_size, hn, ht]
      | some nodes =>
        simp only [material_texture_reports, material_textures_size, hn, ht,
          if_true, List.map_map]
        congr 1
    · simp [material_texture_reports, material_textures_size, hn]

lemma enumFrom_slot_sizes (n : Nat) (l : List MaterialSlot) :
    ((List.enumFrom n l).map fun p => (analyze_slot p.1 p.2).estimated_bytes) =
      l.map slot_textures_size := by
  induction l generalizing n with
  | nil => rfl
  | cons s t ih =>
    show (analyze_slot n s).estimated_bytes ::
        ((List.enumFrom (n + 1) t).map
          fun p => (analyze_slot p.1 p.2).estimated_bytes) =
      slot_textures_size s :: t.map slot_textures_size
    rw [analyze_slot_estimated_bytes, ih]

lemma analyze_object_total_eq (o : Obj) (ev : Except String (Option Mesh)) :
    (analyze_object o ev).total_estimated_bytes =
      data_report_bytes (analyze_object o ev).data +
        ((analyze_object o ev).material_slots.map fun s => s.estimated_bytes).sum +
        ((analyze_object o ev).particle_systems.map
          fun p => (p.estimated_bytes : ℚ)).sum := by
  have h1 : data_report_bytes (analyze_object o ev).data =
      (object_resource_size o : ℚ) := by
    cases hd : o.data <;>
      simp [analyze_object, analyze_data, data_report_bytes,
        object_resource_size, hd]
  have h2 : ((analyze_object o ev).material_slots.map
      fun s => s.estimated_bytes).sum = object_textures_size o.material_slots := by
    show ((o.material_slots.enum.map fun p => analyze_slot p.1 p.2).map
      fun s => s.estimated_bytes).sum = _
    rw [List.map_map]
    show ((List.enumFrom 0 o.material_slots).map
      fun p => (analyze_slot p.1 p.2).estimated_bytes).sum = _
    rw [enumFrom_slot_sizes]
    rfl
  have h3 : ((analyze_object o ev).particle_systems.map
      fun p => (p.estimated_bytes : ℚ)).sum =
      (object_particles_size o.particle_systems : ℚ) := by
    show ((o.particle_systems.map analyze_particle_system).map
      fun p => (p.estimated_bytes : ℚ)).sum = _
    rw [List.map_map]
    unfold object_particles_size
    rw [Nat.cast_list_sum, List.map_map]
    congr 1
  rw [h1, h2, h3]
  rfl

/-- C1: for every scene report built by a successful run, the scene
summary's total equals the sum of the object totals, and each object's
total equals its own resource estimate (raw mesh or curve bytes, zero for
lights/unsupported) plus its material-slot texture estimates plus its
particle-system estimates — the evaluated-mesh estimate appears in neither
sum. -/
theorem C1_totals :
    ∀ (src : String) (scope : ScopeKind)
      (objs : List (Obj × Except String (Option Mesh))),
      (build_scene_report src scope objs).summary.total_estimated_bytes =
        ((build_scene_report src scope objs).objects.map
          fun r => r.total_estimated_bytes).sum ∧
      ∀ r ∈ (build_scene_report src scope objs).objects,
        r.total_estimated_bytes =
          data_report_bytes r.data +
            (r.material_slots.map fun s => s.estimated_bytes).sum +
            (r.particle_systems.map fun p => (p.estimated_bytes : ℚ)).sum := by
  intro src scope objs
  refine ⟨rfl, ?_⟩
  intro r hr
  simp only [build_scene_report] at hr
  obtain ⟨p, hp, rfl⟩ := List.mem_map.mp hr
  exact analyze_object_total_eq p.1 p.2

/-- C1 witness: the invariant instantiated on a one-object scene holding a
cube mesh. -/
theorem C1_totals_witness :
    (build_scene_report "cube.blend" ScopeKind.activeScene
        [(sample_cube, Except.ok none)]).summary.total_estimated_bytes =
      ((build_scene_report "cube.blend" ScopeKind.activeScene
        [(sample_cube, Except.ok none)]).objects.map
          fun r => r.total_estimated_bytes).sum ∧
    (analyze_object sample_cube (Except.ok none)).total_estimated_bytes =
      data_report_bytes (analyze_object sample_cube (Except.ok none)).data +
        ((analyze_object sample_cube (Except.ok none)).material_slots.map
          fun s => s.estimated_bytes).sum +
        ((analyze_object sample_cube (Except.ok none)).particle_systems.map
          fun p => (p.estimated_bytes : ℚ)).sum := by
  obtain ⟨h1, h2⟩ := C1_totals "cube.blend" ScopeKind.activeScene
    [(sample_cube, Except.ok none)]
  exact ⟨h1, h2 _ (by simp [build_scene_report])⟩

/-- C2: when active-scene scope is requested and no scene is active,
`profile_blend_file` does not surface any failure: it returns Python `None`
(no `NoActiveScene` condition, no failed-status value), and the CLI then
falls through to exit code 0 — contradicting the claimed non-zero exit. -/
theorem C2_no_active_scene_not_surfaced :
    profile_blend_file OpenResult.ok false none = Except.ok none ∧
    cli_exit_code (profile_blend_file OpenResult.ok false none) = 0 :=
  ⟨rfl, rfl⟩

/-- C8 counterexample: for a mesh object whose evaluated-geometry request
succeeds but yields no mesh (`to_mesh` returns `None` — evaluation
unavailable), the evaluated estimate stays 0 and does NOT fall back to the
456-byte raw estimate, contrary to the claim. -/
theorem C8_counterexample :
    ((eval_report_of (analyze_object sample_cube (Except.ok none))).map
      fun e => e.evaluated_estimated_bytes) = some 0 ∧
    object_resource_size sample_cube = 456 ∧
    ((eval_report_of (analyze_object sample_cube (Except.ok none))).map
      fun e => e.evaluated_estimated_bytes) ≠ some 456 := by
  refine ⟨rfl, rfl, ?_⟩
  decide

/-- C8 amended: the object's total never includes the evaluated-mesh
estimate (it is independent of the evaluation outcome altogether); a raised
provider failure is recorded, with its message, only in that object's
evaluated-mesh report and the evaluated estimate then falls back to the raw
estimate; an evaluation that yields no mesh records the conversion message
with an evaluated estimate of 0 (not the raw fallback); and the traversal
continues past any such object — every other object's report is unaffected
by it. -/
theorem C8_amended :
    (∀ (o : Obj) (e1 e2 : Except String (Option Mesh)),
      (analyze_object o e1).total_estimated_bytes =
        (analyze_object o e2).total_estimated_bytes) ∧
    (∀ (o : Obj) (m : MeshBlock) (msg : String), o.data = .mesh m →
      eval_report_of (analyze_object o (.error msg)) =
        some ⟨none, none, estimate_mesh_data_size m.counts, some msg⟩) ∧
    (∀ (o : Obj) (m : MeshBlock), o.data = .mesh m →
      eval_report_of (analyze_object o (.ok none)) =
        some ⟨none, none, 0,
          some "Could not convert evaluated object to mesh for stats"⟩) ∧
    (∀ (src : String) (scope : ScopeKind)
      (objs1 objs2 : List (Obj × Except String (Option Mesh)))
      (o : Obj) (e : Except String (Option Mesh)),
      (build_scene_report src scope (objs1 ++ (o, e) :: objs2)).objects =
        (build_scene_report src scope objs1).objects ++
          analyze_object o e ::
            (build_scene_report src scope objs2).objects) := by
  refine ⟨fun o e1 e2 => rfl, ?_, ?_, ?_⟩
  · intro o m msg h
    simp [analyze_object, eval_report_of, analyze_data, h, evaluated_mesh_report]
  · intro o m h
    simp [analyze_object, eval_report_of, analyze_data, h, evaluated_mesh_report]
  · intro src scope objs1 objs2 o e
    simp [build_scene_report]

/-- C8 witness: the amended per-object failure handling instantiated on the
sample cube with a concrete provider failure message. -/
theorem C8_amended_witness :
    (analyze_object sample_cube (Except.error "boom")).total_estimated_bytes =
      (analyze_object sample_cube (Except.ok none)).total_estimated_bytes ∧
    eval_report_of (analyze_object sample_cube (Except.error "boom")) =
      some ⟨none, none, 456, some "boom"⟩ := by
  obtain ⟨h1, h2, h3, h4⟩ := C8_amended
  exact ⟨h1 sample_cube (Except.error "boom") (Except.ok none),
    h2 sample_cube ⟨"Cube", 1, ⟨8, 12, 24, 6, [], [], false⟩⟩ "boom" rfl⟩

lemma un_y_optNat (o : Option Nat) : unOptNat (yOptNat o) = some o := by
  cases o <;> rfl

lemma un_y_optStr (o : Option String) : unOptStr (yOptStr o) = some o := by
  cases o <;> rfl

lemma un_y_scope (s : ScopeKind) : unScope (yScope s) = some s := by
  cases s <;> rfl

lemma decodeList_map {α : Type} (g : Yaml → Option α) (f : α → Yaml)
    (h : ∀ a, g (f a) = some a) :
    ∀ xs : List α, decodeList g (xs.map f) = some xs := by
  intro xs
  induction xs with
  | nil => rfl
  | cons x t ih => simp [decodeList, h x, ih]

lemma un_y_list {α : Type} (g : Yaml → Option α) (f : α → Yaml)
    (h : ∀ a, g (f a) = some a) (xs : List α) :
    unList g (.list (xs.map f)) = some xs := by
  simp [unList, decodeList_map g f h xs]

lemma un_y_modifier (m : ModifierReport) : unModifier (yModifier m) = some m := rfl

lemma un_y_evaluated (e : EvaluatedMeshReport) :
    unEvaluated (yEvaluated e) = some e := by
  obtain ⟨v, p, b, err⟩ := e
  cases v <;> cases p <;> cases err <;> rfl

set_option maxHeartbeats 2000000 in
lemma un_y_mesh (r : MeshReport) : unMeshReport (yMeshReport r) = some r := by
  show ((unList unModifier (Yaml.list (r.modifiers.map yModifier))).bind
      fun modifiers =>
        (unEvaluated (yEvaluated r.evaluated)).map fun evaluated =>
          (⟨r.name, r.vertices, r.edges, r.loops, r.polygons, r.uv_layer_count,
            r.vertex_color_count, r.raw_estimated_bytes, r.users, modifiers,
            evaluated⟩ : MeshReport)) = some r
  rw [un_y_list unModifier yModifier un_y_modifier, un_y_evaluated]
  rfl

lemma un_y_curve (r : CurveReport) : unCurveReport (yCurveReport r) = some r := rfl

lemma un_y_light (r : LightReport) : unLightReport (yLightReport r) = some r := rfl

lemma un_y_data (d : DataReport) : unData (yData d) = some d := by
  cases d with
  | mesh r => simp only [yData, unData, un_y_mesh r, Option.map_some']
  | curve r => rfl
  | light r => rfl
  | none_ => rfl

lemma un_y_texture (t : TextureReport) : unTexture (yTexture t) = some t := by
  obtain ⟨n, s, ps, f, w, h, c, b, e, u⟩ := t
  cases ps <;> rfl

lemma un_y_material_slot (s : MaterialSlotReport) :
    unMaterialSlot (yMaterialSlot s) = some s := by
  simp only [yMaterialSlot, unMaterialSlot, unNat, unRat,
    un_y_optStr s.material_name, un_y_list unTexture yTexture un_y_texture,
    Option.some_bind, Option.map_some']

lemma un_y_psys (p : ParticleSystemReport) :
    unParticleSystemReport (yParticleSystemReport p) = some p := rfl

lemma un_y_summary (s : SceneSummary) : unSummary (ySummary s) = some s := rfl

lemma un_y_object (o : ObjectReport) : unObject (yObject o) = some o := by
  simp only [yObject, unObject, unStr, unRat, un_y_data o.data,
    un_y_list unMaterialSlot yMaterialSlot un_y_material_slot,
    un_y_list unParticleSystemReport yParticleSystemReport un_y_psys,
    Option.some_bind, Option.map_some']

/-- C9: deserializing a serialized SceneReport recovers a value equal to
the original in every field, and the serializer emits mapping keys in
declaration order (it does not alphabetize), shown for the scene root, the
object records and the mesh records. -/
theorem C9_serialization_roundtrip :
    (∀ r : SceneReport, unSceneReport (ySceneReport r) = some r) ∧
    (∀ r : SceneReport,
      yaml_keys (ySceneReport r) = ["source", "scope", "objects", "summary"]) ∧
    (∀ o : ObjectReport, yaml_keys (yObject o) =
      ["name", "kind", "data", "material_slots", "particle_systems",
        "total_estimated_bytes"]) ∧
    (∀ m : MeshReport, yaml_keys (yMeshReport m) =
      ["name", "vertices", "edges", "loops", "polygons", "uv_layer_count",
        "vertex_color_count", "raw_estimated_bytes", "users", "modifiers",
        "evaluated"]) := by
  refine ⟨?_, fun r => rfl, fun o => rfl, fun m => rfl⟩
  intro r
  simp only [ySceneReport, unSceneReport, unStr, un_y_scope r.scope,
    un_y_summary r.summary, un_y_list unObject yObject un_y_object,
    Option.some_bind, Option.map_some']

end BFP

